import Mathlib

/-!
Shallow embedding of the client-side call-rate governor of the
`gemi-gemini-panel` plugin.

The embedded code is the `RateLimiter` class of
`src/gemi-gemini-panel/src/components/SimplePanel.tsx` (lines 13-59) and the
way `GeminiAnalyzerPanel` constructs it from its panel options
(`SimplePanel.tsx` lines 122-134, option schema in `src/module.ts`).

Modelling decisions:
- timestamps and counters are integers (`Int`); `Date.now()` is injected as an
  explicit `now` argument of each method, so the methods become functions from
  the state and the current time;
- a method that mutates fields returns the updated state alongside its result;
  `recordCall` returns only the state (the source returns `void`), and
  `getTimeUntilNextCallAllowed`, whose body contains no assignment, returns
  the state unchanged alongside its number.
-/

/-- State of the `RateLimiter` class: the two configuration fields set by the
constructor and the three mutable counters, with their source names.
`lastCallTime` and `callsInWindow` are field-initialized to `0`;
`windowStartTime` is set to `Date.now()` in the constructor body. -/
structure RateLimiter where
  maxCallsPerMinute : Int
  minTimeBetweenCalls : Int
  lastCallTime : Int
  callsInWindow : Int
  windowStartTime : Int
deriving DecidableEq, Repr

/-- The `RateLimiter` constructor: stores the two configuration values,
leaves `lastCallTime` and `callsInWindow` at their field initializers `0`,
and sets `windowStartTime` to the construction time (`Date.now()`,
injected here as `now`). -/
def RateLimiter.create (maxCallsPerMinute minTimeBetweenCalls now : Int) :
    RateLimiter :=
  { maxCallsPerMinute := maxCallsPerMinute
    minTimeBetweenCalls := minTimeBetweenCalls
    lastCallTime := 0
    callsInWindow := 0
    windowStartTime := now }

/-- Method `canMakeCall`: if more than 60000 ms have elapsed since
`windowStartTime`, reset `callsInWindow` to `0` and `windowStartTime` to
`now`; then return whether `callsInWindow < maxCallsPerMinute` and the time
since the last call is at least `minTimeBetweenCalls`.  Returns the boolean
together with the (possibly reset) state. -/
def RateLimiter.canMakeCall (s : RateLimiter) (now : Int) :
    Bool × RateLimiter :=
  let s1 :=
    if 60000 < now - s.windowStartTime then
      { s with callsInWindow := 0, windowStartTime := now }
    else s
  let timeSinceLastCall := now - s1.lastCallTime
  (decide (s1.callsInWindow < s1.maxCallsPerMinute) &&
     decide (s1.minTimeBetweenCalls ≤ timeSinceLastCall), s1)

/-- Method `recordCall`: unconditionally set `lastCallTime` to `now`
(`Date.now()` in the source) and increment `callsInWindow`. -/
def RateLimiter.recordCall (s : RateLimiter) (now : Int) : RateLimiter :=
  { s with lastCallTime := now, callsInWindow := s.callsInWindow + 1 }

/-- Method `getTimeUntilNextCallAllowed`: if the window count has reached
`maxCallsPerMinute`, return `windowStartTime + 60000 - now` (the source has
no clamp to zero here); else if the time since the last call is below
`minTimeBetweenCalls`, return the remaining spacing; else return `0`.
The method body contains no assignment, so the state comes back unchanged. -/
def RateLimiter.getTimeUntilNextCallAllowed (s : RateLimiter) (now : Int) :
    Int × RateLimiter :=
  let timeSinceLastCall := now - s.lastCallTime
  if s.maxCallsPerMinute ≤ s.callsInWindow then
    (s.windowStartTime + 60000 - now, s)
  else if timeSinceLastCall < s.minTimeBetweenCalls then
    (s.minTimeBetweenCalls - timeSinceLastCall, s)
  else
    (0, s)

/-- States a `RateLimiter` instance can be in: freshly constructed, or the
state after a `canMakeCall` check or a `recordCall` on a reachable state. -/
inductive Reachable : RateLimiter → Prop
  | init (maxCallsPerMinute minTimeBetweenCalls now : Int) :
      Reachable (RateLimiter.create maxCallsPerMinute minTimeBetweenCalls now)
  | check (s : RateLimiter) (now : Int) :
      Reachable s → Reachable (s.canMakeCall now).2
  | record (s : RateLimiter) (now : Int) :
      Reachable s → Reachable (s.recordCall now)

/-- The two rate-limiting fields of the panel options type
(`GeminiAnalyzerOptions`), configured through the number inputs
`maxCallsPerMinute` and `minTimeBetweenCalls` declared in `src/module.ts`;
a field is `none` when the option is unset in the panel configuration. -/
structure GeminiAnalyzerOptions where
  maxCallsPerMinute : Option Int
  minTimeBetweenCalls : Option Int

/-- JavaScript `x || d` for a possibly-undefined integer option: yields the
default `d` when `x` is `undefined` or `0` (the falsy numbers), and the
value itself otherwise. -/
def jsOrDefault (x : Option Int) (d : Int) : Int :=
  match x with
  | none => d
  | some v => if v = 0 then d else v

/-- Construction of the rate limiter owned by the panel, done identically at initial
mount (`SimplePanel.tsx` lines 123-126) and on every configuration change
(lines 129-134):
`new RateLimiter(options.maxCallsPerMinute || 10, options.minTimeBetweenCalls || 2000)`. -/
def panelRateLimiter (o : GeminiAnalyzerOptions) (now : Int) : RateLimiter :=
  RateLimiter.create (jsOrDefault o.maxCallsPerMinute 10)
    (jsOrDefault o.minTimeBetweenCalls 2000) now

/-- In every reachable state the window count is non-negative: it starts at
`0`, a check either keeps it or resets it to `0`, and a record increments. -/
theorem reachable_callsInWindow_nonneg {s : RateLimiter} (h : Reachable s) :
    0 ≤ s.callsInWindow := by
  induction h with
  | init maxC minT now => simp [RateLimiter.create]
  | check s now hs ih =>
      rw [RateLimiter.canMakeCall]
      split
      · simp
      · simpa using ih
  | record s now hs ih => simp [RateLimiter.recordCall]; omega

/-- C1 counterexample: a freshly constructed governor with a valid
configuration (`maxCallsPerMinute = 10` positive, `minTimeBetweenCalls`
non-negative) is asked `canMakeCall` at exactly its construction time and
answers `false`, because `lastCallTime` is initialized to `0` rather than to
a "never" sentinel, so the spacing test compares `now - 0` against
`minTimeBetweenCalls`. -/
theorem c1_fresh_governor_blocked_counterexample :
    ((RateLimiter.create 10 1800000000000 1700000000000).canMakeCall
        1700000000000).1 = false := by
  decide

/-- C1 amended: a freshly constructed governor with `maxCallsPerMinute ≥ 1`
admits any `now` at or after construction time, provided additionally
`now ≥ minTimeBetweenCalls` (the code initializes `lastCallTime` to `0`, so
the spacing test needs `now - 0 ≥ minTimeBetweenCalls`). -/
theorem c1_fresh_governor_admits_after_min_interval
    (maxC minT t0 now : Int) (hmax : 1 ≤ maxC) (_hc : t0 ≤ now)
    (hmin : minT ≤ now) :
    ((RateLimiter.create maxC minT t0).canMakeCall now).1 = true := by
  unfold RateLimiter.canMakeCall RateLimiter.create
  dsimp only
  split <;> simp <;> omega

/-- C1 witness: the amended theorem applied at `maxCallsPerMinute = 10`,
`minTimeBetweenCalls = 2000`, construction time `0`, `now = 5000`. -/
theorem c1_fresh_governor_admits_witness :
    ((RateLimiter.create 10 2000 0).canMakeCall 5000).1 = true :=
  c1_fresh_governor_admits_after_min_interval 10 2000 0 5000 (by decide)
    (by decide) (by decide)

/-- C2 counterexample: the state reached by constructing with
`maxCallsPerMinute = 1` at time `0` and recording one call at time `0` is
reachable, yet at `now = 70000` the window-exhausted branch of
`getTimeUntilNextCallAllowed` returns `0 + 60000 - 70000 = -10000`, a
negative number: the source has no `max(0, _)` clamp. -/
theorem c2_wait_time_negative_counterexample :
    Reachable ((RateLimiter.create 1 0 0).recordCall 0) ∧
      (((RateLimiter.create 1 0 0).recordCall 0).getTimeUntilNextCallAllowed
          70000).1 = -10000 ∧
      (((RateLimiter.create 1 0 0).recordCall 0).getTimeUntilNextCallAllowed
          70000).1 < 0 :=
  ⟨Reachable.record _ _ (Reachable.init 1 0 0), by decide, by decide⟩

/-- C2 amended: `getTimeUntilNextCallAllowed` is non-negative whenever the
current window has not yet expired (`now - windowStartTime ≤ 60000`); the
window-exhausted branch returns `windowStartTime + 60000 - now` unclamped,
which is negative exactly when `now` is past the window end. -/
theorem c2_wait_time_nonneg_within_window (s : RateLimiter) (now : Int)
    (h : now - s.windowStartTime ≤ 60000) :
    0 ≤ (s.getTimeUntilNextCallAllowed now).1 := by
  unfold RateLimiter.getTimeUntilNextCallAllowed
  dsimp only
  split
  · simp; omega
  · split
    · rename_i hsp
      simp; omega
    · simp

/-- C2 witness: the amended theorem applied to a fresh governor
(`maxCallsPerMinute = 10`, `minTimeBetweenCalls = 2000`, constructed at `0`)
at `now = 5000`. -/
theorem c2_wait_time_nonneg_witness :
    0 ≤ ((RateLimiter.create 10 2000 0).getTimeUntilNextCallAllowed 5000).1 :=
  c2_wait_time_nonneg_within_window (RateLimiter.create 10 2000 0) 5000
    (by decide)

/-- C3 counterexample: with `maxCallsPerMinute = 1`, `minTimeBetweenCalls = 0`,
constructed at `0`, one call recorded at `0`, the advised wait at `now = 0` is
`60000`; but `canMakeCall (0 + 60000)` finds `now - windowStartTime = 60000`,
which is not strictly greater than `60000`, so no reset happens and the
exhausted window still blocks: waiting exactly the advised duration does not
yield admission. -/
theorem c3_advised_wait_insufficient_counterexample :
    Reachable ((RateLimiter.create 1 0 0).recordCall 0) ∧
      (((RateLimiter.create 1 0 0).recordCall 0).canMakeCall
          (0 + (((RateLimiter.create 1 0 0).recordCall
            0).getTimeUntilNextCallAllowed 0).1)).1 = false :=
  ⟨Reachable.record _ _ (Reachable.init 1 0 0), by decide⟩

/-- C3 amended: for every reachable state whose window is not exhausted
(`callsInWindow < maxCallsPerMinute`), waiting the advised duration yields
admission: `canMakeCall (now + getTimeUntilNextCallAllowed now)` is `true`.
When the window is exhausted the guarantee fails, because the advised wait
lands exactly at `windowStartTime + 60000`, where the strictly-greater reset
condition has not yet fired. -/
theorem c3_advised_wait_admits_when_window_not_exhausted
    (s : RateLimiter) (now : Int) (hr : Reachable s)
    (hlt : s.callsInWindow < s.maxCallsPerMinute) :
    (s.canMakeCall (now + (s.getTimeUntilNextCallAllowed now).1)).1 = true := by
  have h0 : 0 ≤ s.callsInWindow := reachable_callsInWindow_nonneg hr
  have hnot : ¬ s.maxCallsPerMinute ≤ s.callsInWindow := by omega
  unfold RateLimiter.getTimeUntilNextCallAllowed
  dsimp only
  rw [if_neg hnot]
  by_cases hsp : now - s.lastCallTime < s.minTimeBetweenCalls
  · rw [if_pos hsp]
    unfold RateLimiter.canMakeCall
    dsimp only
    split <;> simp <;> omega
  · rw [if_neg hsp]
    unfold RateLimiter.canMakeCall
    dsimp only
    split <;> simp <;> omega

/-- C3 witness: the amended theorem applied to a fresh governor
(`maxCallsPerMinute = 10`, `minTimeBetweenCalls = 2000`, constructed at `0`)
at `now = 5000`, where the advised wait is `0` and the call is admitted. -/
theorem c3_advised_wait_admits_witness :
    ((RateLimiter.create 10 2000 0).canMakeCall
      (5000 +
        ((RateLimiter.create 10 2000 0).getTimeUntilNextCallAllowed
          5000).1)).1 = true :=
  c3_advised_wait_admits_when_window_not_exhausted
    (RateLimiter.create 10 2000 0) 5000 (Reachable.init 10 2000 0) (by decide)

/-- C4: once `callsInWindow` has reached `maxCallsPerMinute`, `canMakeCall`
answers `false` for every `now` with `now - windowStartTime ≤ 60000`; as soon
as more than 60000 ms have elapsed the check resets `callsInWindow` to `0`
and `windowStartTime` to `now`; and scenario B holds concretely: with
`maxCallsPerMinute = 2`, `minTimeBetweenCalls = 0`, after two calls recorded
at `0`, `callsInWindow = 2`, `canMakeCall 0` is `false` and
`canMakeCall 60001` is `true`. -/
theorem c4_window_exhaustion_blocks_until_rollover :
    (∀ (s : RateLimiter) (now : Int),
        s.maxCallsPerMinute ≤ s.callsInWindow →
          now - s.windowStartTime ≤ 60000 → (s.canMakeCall now).1 = false) ∧
    (∀ (s : RateLimiter) (now : Int),
        60000 < now - s.windowStartTime →
          ((s.canMakeCall now).2).callsInWindow = 0 ∧
            ((s.canMakeCall now).2).windowStartTime = now) ∧
    ((((RateLimiter.create 2 0 0).recordCall 0).recordCall 0).callsInWindow =
        2 ∧
      ((((RateLimiter.create 2 0 0).recordCall 0).recordCall
            0).canMakeCall 0).1 = false ∧
      ((((RateLimiter.create 2 0 0).recordCall 0).recordCall
            0).canMakeCall 60001).1 = true) := by
  refine ⟨?_, ?_, by decide, by decide, by decide⟩
  · intro s now h1 h2
    unfold RateLimiter.canMakeCall
    dsimp only
    rw [if_neg (by omega)]
    simp
    omega
  · intro s now h
    unfold RateLimiter.canMakeCall
    dsimp only
    rw [if_pos h]
    exact ⟨rfl, rfl⟩

/-- C4 witness: the first conjunct applied to the scenario-B state (two calls
recorded at `0` against a limit of `2`) at `now = 30000`, inside the window. -/
theorem c4_window_exhaustion_witness :
    ((((RateLimiter.create 2 0 0).recordCall 0).recordCall
        0).canMakeCall 30000).1 = false :=
  c4_window_exhaustion_blocks_until_rollover.1
    (((RateLimiter.create 2 0 0).recordCall 0).recordCall 0) 30000 (by decide)
    (by decide)

/-- C5: a governor constructed with a non-positive `maxCallsPerMinute` blocks
every call forever: in every state reachable from such a construction
(`maxCallsPerMinute` is never mutated), `canMakeCall` answers `false` for
every `now`, because `callsInWindow` never goes below `0` while the limit is
at most `0`. -/
theorem c5_nonpositive_max_permanently_blocks
    (s : RateLimiter) (hr : Reachable s) (hm : s.maxCallsPerMinute ≤ 0)
    (now : Int) : (s.canMakeCall now).1 = false := by
  have h0 : 0 ≤ s.callsInWindow := reachable_callsInWindow_nonneg hr
  unfold RateLimiter.canMakeCall
  dsimp only
  split <;> simp <;> omega

/-- C5 witness: the theorem applied to a governor freshly constructed with
`maxCallsPerMinute = 0` and checked at `now = 123456`. -/
theorem c5_nonpositive_max_witness :
    ((RateLimiter.create 0 2000 0).canMakeCall 123456).1 = false :=
  c5_nonpositive_max_permanently_blocks (RateLimiter.create 0 2000 0)
    (Reachable.init 0 2000 0) (by decide) 123456

/-- C6: `canMakeCall` is idempotent: running the check a second time with the
same `now` on the state the first check produced returns the same boolean and
leaves the state exactly as the first check left it, so the window reset
happens at most once, on the first check. -/
theorem c6_canMakeCall_idempotent (s : RateLimiter) (now : Int) :
    ((s.canMakeCall now).2).canMakeCall now = s.canMakeCall now := by
  unfold RateLimiter.canMakeCall
  by_cases h : 60000 < now - s.windowStartTime <;> simp [h]

/-- C7 counterexample: the reachable state obtained by constructing at `0`
and directly recording a call at `70000` violates the claimed invariant:
`recordCall` never touches `windowStartTime`, so right after the recorded
call `now - windowStartTime = 70000 > 60000`. -/
theorem c7_record_breaks_window_invariant_counterexample :
    Reachable ((RateLimiter.create 10 2000 0).recordCall 70000) ∧
      ¬ (70000 -
          ((RateLimiter.create 10 2000 0).recordCall
            70000).windowStartTime ≤ 60000) :=
  ⟨Reachable.record _ _ (Reachable.init 10 2000 0), by decide⟩

/-- C7 amended: immediately after a `canMakeCall` check at `now` the invariant
`now - windowStartTime ≤ 60000` holds (the check resets the window whenever
more than 60000 ms have elapsed), and it still holds after a `recordCall` at
the same `now` that follows the check; a bare `recordCall` does not maintain
it, since `recordCall` never changes `windowStartTime`. -/
theorem c7_window_invariant_after_check (s : RateLimiter) (now : Int) :
    now - ((s.canMakeCall now).2).windowStartTime ≤ 60000 ∧
      now -
          (((s.canMakeCall now).2).recordCall now).windowStartTime ≤ 60000 := by
  unfold RateLimiter.canMakeCall RateLimiter.recordCall
  by_cases h : 60000 < now - s.windowStartTime <;> simp [h] <;> omega

/-- C8: the `canMakeCall` check leaves `lastCallTime` and the two
configuration fields untouched, changes `callsInWindow` only by resetting it
to `0` when more than 60000 ms have elapsed since `windowStartTime` (and
leaves it unchanged otherwise), and `getTimeUntilNextCallAllowed` changes no
field at all. -/
theorem c8_check_frame_conditions (s : RateLimiter) (now : Int) :
    ((s.canMakeCall now).2).lastCallTime = s.lastCallTime ∧
      ((s.canMakeCall now).2).maxCallsPerMinute = s.maxCallsPerMinute ∧
      ((s.canMakeCall now).2).minTimeBetweenCalls = s.minTimeBetweenCalls ∧
      ((s.canMakeCall now).2).callsInWindow =
        (if 60000 < now - s.windowStartTime then 0 else s.callsInWindow) ∧
      (s.getTimeUntilNextCallAllowed now).2 = s := by
  have hg : (s.getTimeUntilNextCallAllowed now).2 = s := by
    unfold RateLimiter.getTimeUntilNextCallAllowed
    dsimp only
    split
    · rfl
    · split <;> rfl
  unfold RateLimiter.canMakeCall
  by_cases h : 60000 < now - s.windowStartTime <;> simp [h, hg]

/-- C9: both at mount and on configuration change the panel builds its rate
limiter from `options.maxCallsPerMinute || 10` and
`options.minTimeBetweenCalls || 2000`, so an unset or zero option falls back
to the default (`10`, respectively `2000`); in particular the resulting
`maxCallsPerMinute` is never `0`, so the documented permanently-blocked
zero configuration cannot be produced through the panel options. -/
theorem c9_panel_defaults_prevent_zero_config
    (o : GeminiAnalyzerOptions) (now : Int) :
    (panelRateLimiter o now).maxCallsPerMinute ≠ 0 ∧
      (panelRateLimiter o now).minTimeBetweenCalls ≠ 0 ∧
      (o.maxCallsPerMinute = none ∨ o.maxCallsPerMinute = some 0 →
        (panelRateLimiter o now).maxCallsPerMinute = 10) ∧
      (o.minTimeBetweenCalls = none ∨ o.minTimeBetweenCalls = some 0 →
        (panelRateLimiter o now).minTimeBetweenCalls = 2000) := by
  obtain ⟨m, t⟩ := o
  unfold panelRateLimiter jsOrDefault RateLimiter.create
  cases m <;> cases t <;> simp <;> split_ifs <;> simp_all

/-- C9 witness: the theorem applied to options that set both numbers to `0`
(falsy), so the constructed limiter uses the defaults `10` and `2000`. -/
theorem c9_panel_defaults_witness :
    (panelRateLimiter
        { maxCallsPerMinute := some 0, minTimeBetweenCalls := some 0 }
        0).maxCallsPerMinute = 10 :=
  (c9_panel_defaults_prevent_zero_config
      { maxCallsPerMinute := some 0, minTimeBetweenCalls := some 0 }
      0).2.2.1 (Or.inr rfl)

/-- C10: `recordCall` sets `lastCallTime` to `now`, increments
`callsInWindow` by exactly one, and changes nothing else: `windowStartTime`
and the two configuration fields are untouched, so in particular a record
never triggers a window reset, however much time has elapsed. -/
theorem c10_recordCall_frame_conditions (s : RateLimiter) (now : Int) :
    (s.recordCall now).lastCallTime = now ∧
      (s.recordCall now).callsInWindow = s.callsInWindow + 1 ∧
      (s.recordCall now).windowStartTime = s.windowStartTime ∧
      (s.recordCall now).maxCallsPerMinute = s.maxCallsPerMinute ∧
      (s.recordCall now).minTimeBetweenCalls = s.minTimeBetweenCalls :=
  ⟨rfl, rfl, rfl, rfl, rfl⟩
